import Mathlib

/-!
Verification of the `hooks_sessionindicator` module: a shallow embedding of
`spinner.py`, `hook.py`, `unstick.py` and `terminal.py`, with theorems
settling the specification's claims about them.

Timestamps are modelled as rationals (seconds); Python dicts of string keys
are modelled as association lists with dict update/member semantics; event
payloads are records of optional fields (a missing dict key is `none`).
-/

namespace SessionIndicator

/-! ### spinner.py -/

-- Spinner frame sets (module-level SPINNERS table).
def dotsFrames : List String := ["⠋", "⠙", "⠹", "⠸", "⠼", "⠴", "⠦", "⠧", "⠇", "⠏"]

def lineFrames : List String := ["|", "/", "-", "\\"]

def boxFrames : List String := ["◰", "◳", "◲", "◱"]

def arrowFrames : List String := ["←", "↖", "↑", "↗", "→", "↘", "↓", "↙"]

def bounceFrames : List String := ["⠁", "⠂", "⠄", "⡀", "⢀", "⠠", "⠐", "⠈"]

def circleFrames : List String := ["◜", "◝", "◞", "◟"]

def growFrames : List String := ["⣀", "⣄", "⣤", "⣦", "⣶", "⣷", "⣿", "⣾", "⣼", "⣸"]

def ellipsisFrames : List String := ["   ", ".  ", ".. ", "..."]

def SPINNERS : List (String × List String) :=
  [("dots", dotsFrames), ("line", lineFrames), ("box", boxFrames),
   ("arrow", arrowFrames), ("bounce", bounceFrames), ("circle", circleFrames),
   ("grow", growFrames), ("ellipsis", ellipsisFrames)]

def DEFAULT_SPINNER : String := "dots"

/-- `Spinner` object state: the selected frame sequence and the cursor. -/
structure Spinner where
  frames : List String
  index : Nat
deriving Repr, DecidableEq

/-- `Spinner.__init__(style, frames)`.  Python truthiness: a `frames`
argument that is `None` or the empty sequence falls through to the style
lookup; an unknown style falls back to the default style. -/
def mkSpinner (style : String) (framesArg : Option (List String)) : Spinner :=
  let fs :=
    match framesArg with
    | some fr =>
      if fr.isEmpty then
        match SPINNERS.lookup style with
        | some l => l
        | none => dotsFrames
      else fr
    | none =>
      match SPINNERS.lookup style with
      | some l => l
      | none => dotsFrames
  { frames := fs, index := 0 }

/-- `Spinner.next_frame`: return the frame at the cursor, then advance the
cursor circularly.  (Indexing out of range cannot occur: the constructor
always selects a non-empty sequence.) -/
def Spinner.next_frame (s : Spinner) : String × Spinner :=
  (s.frames.getD s.index "", { s with index := (s.index + 1) % s.frames.length })

/-- `Spinner.current_frame`: return the frame at the cursor without advancing. -/
def Spinner.current_frame (s : Spinner) : String :=
  s.frames.getD s.index ""

/-- `Spinner.reset`: set the cursor back to 0. -/
def Spinner.reset (s : Spinner) : Spinner :=
  { s with index := 0 }

/-- The frame returned by the k-th `next_frame` call (0-indexed) starting
from state `s`. -/
def Spinner.frameAt (s : Spinner) : Nat → String
  | 0 => s.next_frame.1
  | k + 1 => s.next_frame.2.frameAt k

/-! ### spinner.py — StatusSpinner -/

def STATUS_ICONS : List (String × String) :=
  [("idle", "○"), ("error", "✗"), ("success", "✓"), ("warning", "⚠")]

def STREAMING_FRAMES : List String :=
  ["▁", "▂", "▃", "▄", "▅", "▆", "▇", "█", "▇", "▆", "▅", "▄", "▃", "▂"]

/-- `StatusSpinner` object state: the inherited plain spinner plus the
current status and the streaming-waveform cursor. -/
structure StatusSpinner where
  base : Spinner
  status : String
  streaming_index : Nat
deriving Repr, DecidableEq

/-- `StatusSpinner.__init__(style)`. -/
def mkStatusSpinner (style : String) : StatusSpinner :=
  { base := mkSpinner style none, status := "thinking", streaming_index := 0 }

/-- `StatusSpinner.set_status`. -/
def StatusSpinner.set_status (s : StatusSpinner) (status : String) : StatusSpinner :=
  { s with status := status }

/-- `StatusSpinner.next_frame`: a fixed icon for statuses in `STATUS_ICONS`
(no cursor moves), the waveform sequence when streaming, otherwise the
inherited cyclic behaviour. -/
def StatusSpinner.next_frame (s : StatusSpinner) : String × StatusSpinner :=
  match STATUS_ICONS.lookup s.status with
  | some icon => (icon, s)
  | none =>
    if s.status = "streaming" then
      (STREAMING_FRAMES.getD s.streaming_index "",
       { s with streaming_index := (s.streaming_index + 1) % STREAMING_FRAMES.length })
    else
      let (f, b) := s.base.next_frame
      (f, { s with base := b })

/-- The frame returned by the k-th `StatusSpinner.next_frame` call
(0-indexed) starting from state `s`. -/
def StatusSpinner.frameAt (s : StatusSpinner) : Nat → String
  | 0 => s.next_frame.1
  | k + 1 => s.next_frame.2.frameAt k

/-! ### Generic lemmas about the spinners -/

theorem spinner_frameAt_eq (fs : List String) (hn : fs ≠ []) :
    ∀ (k i : Nat), i < fs.length →
      Spinner.frameAt ⟨fs, i⟩ k = fs.getD ((i + k) % fs.length) "" := by
  intro k
  induction k with
  | zero =>
    intro i hi
    simp [Spinner.frameAt, Spinner.next_frame, Nat.mod_eq_of_lt hi]
  | succ k ih =>
    intro i hi
    have hpos : 0 < fs.length := List.length_pos.mpr hn
    have h1 : (i + 1) % fs.length < fs.length := Nat.mod_lt _ hpos
    have := ih ((i + 1) % fs.length) h1
    simp only [Spinner.frameAt, Spinner.next_frame] at *
    rw [this, Nat.mod_add_mod, show i + 1 + k = i + (k + 1) from by omega]

theorem mkSpinner_custom_frames (fs : List String) (hn : ¬ fs.isEmpty) (style : String) :
    mkSpinner style (some fs) = ⟨fs, 0⟩ := by
  simp [mkSpinner, hn]

theorem statusSpinner_streaming_frameAt :
    ∀ (k : Nat) (s : StatusSpinner), s.status = "streaming" →
      s.streaming_index < STREAMING_FRAMES.length →
      s.frameAt k =
        STREAMING_FRAMES.getD ((s.streaming_index + k) % STREAMING_FRAMES.length) "" := by
  have hlk : STATUS_ICONS.lookup "streaming" = none := by decide
  intro k
  induction k with
  | zero =>
    intro s hs hi
    simp [StatusSpinner.frameAt, StatusSpinner.next_frame, hs, hlk, Nat.mod_eq_of_lt hi]
  | succ k ih =>
    intro s hs hi
    have hpos : 0 < STREAMING_FRAMES.length := by decide
    have h1 : (s.streaming_index + 1) % STREAMING_FRAMES.length < STREAMING_FRAMES.length :=
      Nat.mod_lt _ hpos
    have hnf : s.next_frame.2
        = { s with streaming_index := (s.streaming_index + 1) % STREAMING_FRAMES.length } := by
      simp [StatusSpinner.next_frame, hs, hlk]
    have hrec := ih { s with streaming_index := (s.streaming_index + 1) % STREAMING_FRAMES.length }
      (by simpa using hs) h1
    simp only [StatusSpinner.frameAt]
    rw [hnf, hrec, Nat.mod_add_mod,
      show s.streaming_index + 1 + k = s.streaming_index + (k + 1) from by omega]

/-- C7: for every non-empty frame list, the k-th `next_frame` call of the
plain spinner built on it returns `frames[k mod n]`; after `reset` the next
call returns `frames[0]`; and an unknown style name silently falls back to
the default (dots) frames. -/
theorem C7_plain_spinner_cycle (fs : List String) (hn : fs ≠ []) (k : Nat)
    (s : Spinner) (style : String) (hstyle : SPINNERS.lookup style = none) :
    (mkSpinner DEFAULT_SPINNER (some fs)).frameAt k = fs.getD (k % fs.length) "" ∧
    s.reset.next_frame.1 = s.frames.getD 0 "" ∧
    mkSpinner style none = ⟨dotsFrames, 0⟩ := by
  refine ⟨?_, rfl, ?_⟩
  · rw [mkSpinner_custom_frames fs (by simpa using hn) DEFAULT_SPINNER]
    simpa using spinner_frameAt_eq fs hn k 0 (List.length_pos.mpr hn)
  · simp [mkSpinner, hstyle]

theorem C7_plain_spinner_cycle_witness :
    (mkSpinner DEFAULT_SPINNER (some ["a", "b", "c"])).frameAt 7 = "b" ∧
    (Spinner.mk ["x", "y"] 1).reset.next_frame.1 = "x" ∧
    mkSpinner "bogus" none = ⟨dotsFrames, 0⟩ := by
  obtain ⟨h1, h2, h3⟩ :=
    C7_plain_spinner_cycle ["a", "b", "c"] (by decide) 7 ⟨["x", "y"], 1⟩ "bogus" (by decide)
  exact ⟨by rw [h1]; decide, by rw [h2]; decide, h3⟩

/-- C3 counterexample: the streaming waveform sequence in the source has 14
entries, not 8, and is not duplicate-free; after reaching the full bar at
call 7 the next call returns a lower bar (the sequence bounces back down),
repeating the glyph of call 6. -/
theorem C3_streaming_counterexample :
    STREAMING_FRAMES.length = 14 ∧ ¬ STREAMING_FRAMES.Nodup ∧
    ((mkStatusSpinner DEFAULT_SPINNER).set_status "streaming").frameAt 7 = "█" ∧
    ((mkStatusSpinner DEFAULT_SPINNER).set_status "streaming").frameAt 8 = "▇" ∧
    ((mkStatusSpinner DEFAULT_SPINNER).set_status "streaming").frameAt 6 = "▇" := by
  refine ⟨rfl, by decide, by decide, by decide, by decide⟩

/-- C3 (amended): when the status is one of idle/error/success/warning the
status-aware spinner returns the fixed mapped glyph (idle→○, error→✗,
success→✓, warning→⚠) with the whole state unchanged (no cursor advances);
when the status is "streaming" the k-th call cycles forward through a
secondary waveform sequence of 14 frames built from 8 distinct bar-height
glyphs that ascend to the full bar and then descend (a bounce); for every
other status it falls through to the inherited cyclic advancement. -/
theorem C3_status_spinner (s : StatusSpinner) (icon : String) (k : Nat) :
    (STATUS_ICONS.lookup s.status = some icon → s.next_frame = (icon, s)) ∧
    (s.status = "streaming" → s.streaming_index = 0 →
      s.frameAt k = STREAMING_FRAMES.getD (k % 14) "") ∧
    (STATUS_ICONS.lookup s.status = none → s.status ≠ "streaming" →
      s.next_frame = (s.base.next_frame.1, { s with base := s.base.next_frame.2 })) ∧
    STATUS_ICONS.lookup "idle" = some "○" ∧ STATUS_ICONS.lookup "error" = some "✗" ∧
    STATUS_ICONS.lookup "success" = some "✓" ∧ STATUS_ICONS.lookup "warning" = some "⚠" ∧
    STREAMING_FRAMES.length = 14 ∧ STREAMING_FRAMES.dedup.length = 8 := by
  refine ⟨?_, ?_, ?_, by decide, by decide, by decide, by decide, rfl, by decide⟩
  · intro h
    simp [StatusSpinner.next_frame, h]
  · intro hs hi
    have hfr := statusSpinner_streaming_frameAt k s hs (by rw [hi]; decide)
    have h14 : STREAMING_FRAMES.length = 14 := rfl
    rw [hfr, hi, h14, Nat.zero_add]
  · intro h1 h2
    simp [StatusSpinner.next_frame, h1, h2]

theorem C3_status_spinner_witness :
    ((mkStatusSpinner DEFAULT_SPINNER).set_status "idle").next_frame =
      ("○", (mkStatusSpinner DEFAULT_SPINNER).set_status "idle") ∧
    ((mkStatusSpinner DEFAULT_SPINNER).set_status "streaming").frameAt 15 = "▂" ∧
    ((mkStatusSpinner DEFAULT_SPINNER).set_status "thinking").next_frame.1 = "⠋" := by
  refine ⟨?_, ?_, ?_⟩
  · exact (C3_status_spinner ((mkStatusSpinner DEFAULT_SPINNER).set_status "idle") "○" 0).1
      (by decide)
  · have h := (C3_status_spinner ((mkStatusSpinner DEFAULT_SPINNER).set_status "streaming")
      "" 15).2.1 rfl rfl
    rw [h]
    decide
  · have h := (C3_status_spinner ((mkStatusSpinner DEFAULT_SPINNER).set_status "thinking")
      "" 0).2.2.1 (by decide) (by decide)
    rw [h]
    decide

/-! ### hook.py — data model -/

/-- A `usage` dict inside an `llm:response` payload; each key optional. -/
structure Usage where
  input_tokens : Option Nat := none
  output_tokens : Option Nat := none
deriving Repr, DecidableEq

/-- An event payload: the dict keys the handlers read, each optional
(`none` models a missing key). -/
structure Payload where
  session_id : Option String := none
  agent : Option String := none
  error : Option String := none
  token_count : Option Nat := none
  usage : Option Usage := none
  tool_name : Option String := none
  name : Option String := none
deriving Repr, DecidableEq

/-- Python string slice `s[:n]` for a non-negative `n`. -/
def pyTakeNat (s : String) (n : Nat) : String :=
  (s.toList.take n).asString

/-- Membership test of a Python dict modelled as an association list. -/
def dictContains (m : List (String × String)) (k : String) : Bool :=
  (m.lookup k).isSome

/-- Python dict assignment `m[k] = v`: replace in place if the key exists,
append otherwise. -/
def dictInsert : List (String × String) → String → String → List (String × String)
  | [], k, v => [(k, v)]
  | (a, b) :: t, k, v => if a = k then (k, v) :: t else (a, b) :: dictInsert t k v

/-- Python `del m[k]`. -/
def dictErase (m : List (String × String)) (k : String) : List (String × String) :=
  m.filter (fun p => p.1 != k)

/-- `SessionState` dataclass (timestamps as rational seconds). -/
structure SessionState where
  session_id : Option String := none
  started_at : Option ℚ := none
  status : String := "idle"
  current_tool : Option String := none
  input_tokens : Nat := 0
  output_tokens : Nat := 0
  turn_count : Nat := 0
  is_streaming : Bool := false
  last_activity : Option ℚ := none
  active_subsessions : List (String × String) := []
deriving Repr, DecidableEq

/-- `SessionIndicatorHook` fields that the claims touch: the capability
flag computed in `__init__`, the session state, and whether the status
line / background refresh task have been started. -/
structure Hook where
  enabled : Bool
  state : SessionState
  running : Bool
  status_line_shown : Bool
  update_task_running : Bool
deriving Repr, DecidableEq

/-! ### hook.py — event handlers -/

/-- `_handle_session_start`: fresh `SessionState`, sink shown, refresh
task started. -/
def handle_session_start (h : Hook) (p : Payload) (now : ℚ) : Hook :=
  { h with
    state := { session_id := p.session_id, started_at := some now,
               status := "starting", last_activity := some now },
    running := true, status_line_shown := true, update_task_running := true }

/-- `_handle_session_end`: stop the refresh task, push the summary, hide
the sink. -/
def handle_session_end (h : Hook) (_p : Payload) : Hook :=
  { h with running := false, status_line_shown := false, update_task_running := false }

/-- `_handle_session_error`. -/
def handle_session_error (p : Payload) (s : SessionState) : SessionState :=
  { s with status := "error",
           current_tool := some ("Error: " ++ pyTakeNat (p.error.getD "Unknown error") 50) }

/-- `_handle_llm_request`. -/
def handle_llm_request (p : Payload) (s : SessionState) : SessionState :=
  let s1 := { s with status := "thinking", current_tool := none, is_streaming := false }
  match p.token_count with
  | some tc => { s1 with input_tokens := s1.input_tokens + tc }
  | none => s1

/-- `_handle_llm_response`. -/
def handle_llm_response (p : Payload) (s : SessionState) : SessionState :=
  let s1 := { s with status := "processing", is_streaming := false }
  match p.token_count with
  | some tc => { s1 with output_tokens := s1.output_tokens + tc }
  | none =>
    match p.usage with
    | some u =>
      let s2 :=
        match u.input_tokens with
        | some it => { s1 with input_tokens := it }
        | none => s1
      match u.output_tokens with
      | some ot => { s2 with output_tokens := s2.output_tokens + ot }
      | none => s2
    | none => s1

/-- `_handle_llm_stream_start`. -/
def handle_llm_stream_start (_p : Payload) (s : SessionState) : SessionState :=
  { s with status := "streaming", is_streaming := true }

/-- `_handle_llm_stream_chunk`: no state change beyond the universal
last-activity touch. -/
def handle_llm_stream_chunk (_p : Payload) (s : SessionState) : SessionState :=
  s

/-- `_handle_llm_stream_end`. -/
def handle_llm_stream_end (_p : Payload) (s : SessionState) : SessionState :=
  { s with is_streaming := false, status := "processing" }

/-- `_handle_tool_pre`. -/
def handle_tool_pre (p : Payload) (s : SessionState) : SessionState :=
  { s with status := "executing",
           current_tool := some (p.tool_name.getD (p.name.getD "tool")) }

/-- `_handle_tool_post`. -/
def handle_tool_post (_p : Payload) (s : SessionState) : SessionState :=
  { s with status := "thinking", current_tool := none }

/-- `_handle_turn_start`. -/
def handle_turn_start (_p : Payload) (s : SessionState) : SessionState :=
  { s with turn_count := s.turn_count + 1, status := "thinking" }

/-- `_handle_turn_end`. -/
def handle_turn_end (_p : Payload) (s : SessionState) : SessionState :=
  { s with status := "idle", current_tool := none }

/-- `_handle_task_agent_spawned`. -/
def handle_task_agent_spawned (p : Payload) (s : SessionState) : SessionState :=
  let sub_id := p.session_id.getD "unknown"
  let agent := p.agent.getD "agent"
  { s with active_subsessions := dictInsert s.active_subsessions sub_id agent,
           status := "delegating",
           current_tool := some ("→ " ++ agent) }

/-- Deletion step of `_handle_task_agent_complete`.  Python truthiness:
`if sub_id and sub_id in ...` skips the deletion when the id is missing
or the empty string. -/
def agent_complete_delete (p : Payload) (s : SessionState) : SessionState :=
  match p.session_id with
  | some sub_id =>
    if sub_id != "" && dictContains s.active_subsessions sub_id then
      { s with active_subsessions := dictErase s.active_subsessions sub_id }
    else s
  | none => s

/-- `_handle_task_agent_complete`: the deletion step, then the
empty-map check. -/
def handle_task_agent_complete (p : Payload) (s : SessionState) : SessionState :=
  let s1 := agent_complete_delete p s
  if s1.active_subsessions.isEmpty then
    { s1 with status := "thinking", current_tool := none }
  else s1

/-- The event names the hook subscribes to. -/
def SUBSCRIBED_EVENTS : List String :=
  ["session:start", "session:end", "session:error",
   "llm:request", "llm:response",
   "llm:stream_start", "llm:stream_chunk", "llm:stream_end",
   "tool:pre", "tool:post",
   "turn:start", "turn:end",
   "task:agent_spawned", "task:agent_complete"]

/-- Python `event_type.replace(":", "_")`, the transform the `getattr`
dispatch of `on_event` applies to the event name before the handler
lookup. -/
def pyReplaceColon (s : String) : String :=
  (s.data.map (fun c => if c = ':' then '_' else c)).asString

/-- The `_handle_*` method suffixes defined on the hook class: the
`getattr` lookup finds a handler exactly when the colon-to-underscore
transform of the event name is one of these (so alias names such as
"tool_post" also reach a handler). -/
def HANDLER_NAMES : List String :=
  ["session_start", "session_end", "session_error",
   "llm_request", "llm_response",
   "llm_stream_start", "llm_stream_chunk", "llm_stream_end",
   "tool_pre", "tool_post",
   "turn_start", "turn_end",
   "task_agent_spawned", "task_agent_complete"]

/-- The `getattr(self, "_handle_" + event_type.replace(":", "_"), None)`
lookup of `on_event`, restricted to the handlers that only touch
`SessionState`; an event name whose transform matches no handler method
yields `none`. -/
def stateHandlerFor (event_type : String) :
    Option (Payload → SessionState → SessionState) :=
  let m := pyReplaceColon event_type
  if m = "session_error" then some handle_session_error
  else if m = "llm_request" then some handle_llm_request
  else if m = "llm_response" then some handle_llm_response
  else if m = "llm_stream_start" then some handle_llm_stream_start
  else if m = "llm_stream_chunk" then some handle_llm_stream_chunk
  else if m = "llm_stream_end" then some handle_llm_stream_end
  else if m = "tool_pre" then some handle_tool_pre
  else if m = "tool_post" then some handle_tool_post
  else if m = "turn_start" then some handle_turn_start
  else if m = "turn_end" then some handle_turn_end
  else if m = "task_agent_spawned" then some handle_task_agent_spawned
  else if m = "task_agent_complete" then some handle_task_agent_complete
  else none

/-- `SessionIndicatorHook.on_event`: return untouched when the capability
check disabled the hook; otherwise run the handler the transformed name
resolves to, when one exists, then unconditionally stamp `last_activity`
with the current time. -/
def on_event (h : Hook) (event_type : String) (p : Payload) (now : ℚ) : Hook :=
  if !h.enabled then h
  else
    let m := pyReplaceColon event_type
    let h1 :=
      if m = "session_start" then handle_session_start h p now
      else if m = "session_end" then handle_session_end h p
      else
        match stateHandlerFor event_type with
        | some f => { h with state := f p h.state }
        | none => h
    { h1 with state := { h1.state with last_activity := some now } }

/-! ### Dict lemmas -/

theorem lookup_dictInsert (m : List (String × String)) (k v : String) :
    (dictInsert m k v).lookup k = some v := by
  induction m with
  | nil => simp [dictInsert, List.lookup]
  | cons a t ih =>
    obtain ⟨a1, a2⟩ := a
    by_cases hk : a1 = k
    · simp [dictInsert, hk, List.lookup]
    · have hko : (k == a1) = false := beq_eq_false_iff_ne.mpr (Ne.symm hk)
      simp [dictInsert, hk, List.lookup, hko, ih]

theorem dictErase_of_not_contains (m : List (String × String)) (k : String)
    (h : dictContains m k = false) : dictErase m k = m := by
  induction m with
  | nil => rfl
  | cons a t ih =>
    obtain ⟨a1, a2⟩ := a
    by_cases hk : a1 = k
    · exfalso
      simp [dictContains, List.lookup, hk] at h
    · have hko : (k == a1) = false := beq_eq_false_iff_ne.mpr (Ne.symm hk)
      have hbne : (a1 != k) = true := by
        simp [bne_iff_ne, hk]
      have ht : dictContains t k = false := by
        simpa [dictContains, List.lookup, hko] using h
      have ih2 : List.filter (fun q => q.1 != k) t = t := ih ht
      simp [dictErase, List.filter_cons, hbne, ih2]

theorem pyTakeNat_length (s : String) (n : Nat) :
    (pyTakeNat s n).length = min n s.length := by
  show (s.data.take n).length = min n s.data.length
  simp [List.length_take]

theorem complete_map_eq (p : Payload) (s : SessionState) :
    (handle_task_agent_complete p s).active_subsessions
      = (agent_complete_delete p s).active_subsessions := by
  unfold handle_task_agent_complete
  by_cases hc : (agent_complete_delete p s).active_subsessions.isEmpty = true
  · simp [hc]
  · simp [hc]

/-- C2: on `llm:response` the status becomes "processing" and streaming
stops; a `token_count` in the payload is added to the output counter with
the input counter untouched; otherwise a `usage` object sets the input
counter to its absolute input value when present and adds its output value
to the output counter; with neither field both counters are unchanged. -/
theorem C2_llm_response (p : Payload) (s : SessionState) :
    (handle_llm_response p s).status = "processing" ∧
    (handle_llm_response p s).is_streaming = false ∧
    (∀ tc, p.token_count = some tc →
      (handle_llm_response p s).output_tokens = s.output_tokens + tc ∧
      (handle_llm_response p s).input_tokens = s.input_tokens) ∧
    (∀ u, p.token_count = none → p.usage = some u →
      (handle_llm_response p s).input_tokens = u.input_tokens.getD s.input_tokens ∧
      (handle_llm_response p s).output_tokens = s.output_tokens + u.output_tokens.getD 0) ∧
    (p.token_count = none → p.usage = none →
      (handle_llm_response p s).input_tokens = s.input_tokens ∧
      (handle_llm_response p s).output_tokens = s.output_tokens) := by
  obtain ⟨sid, ag, er, tc, us, tn, nm⟩ := p
  cases tc with
  | some n => simp [handle_llm_response]
  | none =>
    cases us with
    | none => simp [handle_llm_response]
    | some u =>
      obtain ⟨ui, uo⟩ := u
      cases ui <;> cases uo <;> simp [handle_llm_response]

theorem C2_llm_response_witness :
    (handle_llm_response { token_count := some 5 }
      { input_tokens := 10, output_tokens := 20 }).output_tokens = 25 ∧
    (handle_llm_response { usage := some { input_tokens := some 7, output_tokens := some 3 } }
      { input_tokens := 10, output_tokens := 20 }).input_tokens = 7 ∧
    (handle_llm_response { usage := some { input_tokens := some 7, output_tokens := some 3 } }
      { input_tokens := 10, output_tokens := 20 }).output_tokens = 23 ∧
    (handle_llm_response {} { input_tokens := 10, output_tokens := 20 }).input_tokens = 10 := by
  refine ⟨?_, ?_, ?_, ?_⟩
  · have h := (C2_llm_response { token_count := some 5 }
      { input_tokens := 10, output_tokens := 20 }).2.2.1 5 rfl
    rw [h.1]
  · have h := (C2_llm_response
      { usage := some { input_tokens := some 7, output_tokens := some 3 } }
      { input_tokens := 10, output_tokens := 20 }).2.2.2.1
      { input_tokens := some 7, output_tokens := some 3 } rfl rfl
    rw [h.1]
    decide
  · have h := (C2_llm_response
      { usage := some { input_tokens := some 7, output_tokens := some 3 } }
      { input_tokens := 10, output_tokens := 20 }).2.2.2.1
      { input_tokens := some 7, output_tokens := some 3 } rfl rfl
    rw [h.2]
    decide
  · have h := (C2_llm_response {} { input_tokens := 10, output_tokens := 20 }).2.2.2.2 rfl rfl
    rw [h.1]

def longErrorMessage : String :=
  "aaaaaaaaaaaaaaaaaaaaaaaaaaaaaaaaaaaaaaaaaaaaaaaaaaaaaaaaaaa"

/-- C4 counterexample: with a 59-character error message the stored
`current_tool` is "Error: " followed by the first 50 characters of the
message — 57 characters in total, which exceeds the claimed 50-character
bound (and is not the bare truncated message). -/
theorem C4_counterexample :
    ((handle_session_error { error := some longErrorMessage } {}).current_tool.map
      String.length) = some 57 ∧ ¬ (57 ≤ 50) := by
  exact ⟨by decide, by decide⟩

/-- C4 (amended): on `session:error` the status becomes "error" and
`current_tool` is set to "Error: " followed by the payload error message
(default "Unknown error") truncated to its first 50 characters, so the
stored label never exceeds 57 characters. -/
theorem C4_session_error (p : Payload) (s : SessionState) (t : String) :
    (handle_session_error p s).status = "error" ∧
    (handle_session_error p s).current_tool
      = some ("Error: " ++ pyTakeNat (p.error.getD "Unknown error") 50) ∧
    ((handle_session_error p s).current_tool = some t → t.length ≤ 57) := by
  refine ⟨rfl, rfl, ?_⟩
  intro ht
  have h2 : t = "Error: " ++ pyTakeNat (p.error.getD "Unknown error") 50 :=
    (Option.some.inj ht).symm
  rw [h2, String.length_append, pyTakeNat_length]
  have h7 : ("Error: ").length = 7 := rfl
  rw [h7]
  omega

theorem C4_session_error_witness :
    (handle_session_error { error := some "boom" } {}).status = "error" ∧
    ("Error: boom").length ≤ 57 := by
  exact ⟨(C4_session_error { error := some "boom" } {} "Error: boom").1,
         (C4_session_error { error := some "boom" } {} "Error: boom").2.2 (by decide)⟩

/-- C5 counterexample: an agent-complete event whose session id is the
empty string leaves the map unchanged even though the empty-string key is
present (Python truthiness skips the deletion), so a present subId is not
removed. -/
theorem C5_counterexample :
    dictContains [("", "x")] "" = true ∧
    (handle_task_agent_complete { session_id := some "" }
      { active_subsessions := [("", "x")] }).active_subsessions = [("", "x")] := by
  exact ⟨by decide, by decide⟩

/-- C5 (amended): `task:agent_spawned` inserts the (subId, agentName)
pair, sets status "delegating" and `current_tool` to "→ " + agent;
`task:agent_complete` removes the subId when it is non-empty (removal of a
non-existent key is a no-op), leaves the map unchanged when the payload id
is missing or the empty string, and when the map is empty after the
handler runs sets status "thinking" and clears `current_tool`. -/
theorem C5_subsessions (p : Payload) (s : SessionState) (sid agent : String) :
    (p.session_id = some sid → p.agent = some agent →
      (handle_task_agent_spawned p s).active_subsessions.lookup sid = some agent ∧
      (handle_task_agent_spawned p s).status = "delegating" ∧
      (handle_task_agent_spawned p s).current_tool = some ("→ " ++ agent)) ∧
    (p.session_id = some sid → sid ≠ "" →
      (handle_task_agent_complete p s).active_subsessions
        = dictErase s.active_subsessions sid) ∧
    (p.session_id = some sid → sid ≠ "" → dictContains s.active_subsessions sid = false →
      (handle_task_agent_complete p s).active_subsessions = s.active_subsessions) ∧
    (p.session_id = none ∨ p.session_id = some "" →
      (handle_task_agent_complete p s).active_subsessions = s.active_subsessions) ∧
    ((handle_task_agent_complete p s).active_subsessions.isEmpty = true →
      (handle_task_agent_complete p s).status = "thinking" ∧
      (handle_task_agent_complete p s).current_tool = none) := by
  have herase : ∀ h1 : p.session_id = some sid, sid ≠ "" →
      (handle_task_agent_complete p s).active_subsessions
        = dictErase s.active_subsessions sid := by
    intro h1 h2
    rw [complete_map_eq]
    unfold agent_complete_delete
    rw [h1]
    have hb : (sid != "") = true := by simp [bne_iff_ne, h2]
    by_cases hc : dictContains s.active_subsessions sid
    · simp [hb, hc]
    · have hcf : dictContains s.active_subsessions sid = false := by
        simpa using hc
      simp [hb, hcf, dictErase_of_not_contains s.active_subsessions sid hcf]
  refine ⟨?_, herase, ?_, ?_, ?_⟩
  · intro h1 h2
    refine ⟨?_, rfl, ?_⟩
    · simp [handle_task_agent_spawned, h1, h2, lookup_dictInsert]
    · simp [handle_task_agent_spawned, h2]
  · intro h1 h2 hc
    rw [herase h1 h2, dictErase_of_not_contains s.active_subsessions sid hc]
  · intro hd
    rw [complete_map_eq]
    unfold agent_complete_delete
    rcases hd with hd | hd
    · rw [hd]
    · rw [hd]
      simp
  · intro hemp
    unfold handle_task_agent_complete at hemp ⊢
    by_cases he : (agent_complete_delete p s).active_subsessions.isEmpty = true
    · simp [he]
    · simp [he] at hemp

theorem C5_subsessions_witness :
    (handle_task_agent_spawned { session_id := some "sub-123", agent := some "X" }
      {}).status = "delegating" ∧
    (handle_task_agent_spawned { session_id := some "sub-123", agent := some "X" }
      {}).active_subsessions.lookup "sub-123" = some "X" ∧
    (handle_task_agent_complete { session_id := some "sub-123" }
      { active_subsessions := [("sub-123", "X")] }).active_subsessions = [] ∧
    (handle_task_agent_complete { session_id := some "sub-123" }
      { active_subsessions := [("sub-123", "X")] }).status = "thinking" := by
  refine ⟨?_, ?_, ?_, ?_⟩
  · exact ((C5_subsessions { session_id := some "sub-123", agent := some "X" } {}
      "sub-123" "X").1 rfl rfl).2.1
  · exact ((C5_subsessions { session_id := some "sub-123", agent := some "X" } {}
      "sub-123" "X").1 rfl rfl).1
  · have h := (C5_subsessions { session_id := some "sub-123" }
      { active_subsessions := [("sub-123", "X")] } "sub-123" "X").2.1 rfl (by decide)
    rw [h]
    decide
  · exact ((C5_subsessions { session_id := some "sub-123" }
      { active_subsessions := [("sub-123", "X")] } "sub-123" "X").2.2.2.2 (by decide)).1

/-- C10: when the capability check at construction reported the output
destination as unsupported (`enabled = false`), `on_event` returns the
hook completely unchanged for every event name and payload: no handler
runs, no `SessionState` field changes (including `last_activity`), and no
sink or refresh task is started. -/
theorem C10_disabled_noop (h : Hook) (event_type : String) (p : Payload) (now : ℚ)
    (hen : h.enabled = false) :
    on_event h event_type p now = h := by
  simp [on_event, hen]

theorem C10_disabled_noop_witness :
    on_event { enabled := false, state := {}, running := false,
               status_line_shown := false, update_task_running := false }
      "session:start" {} 7
      = { enabled := false, state := {}, running := false,
          status_line_shown := false, update_task_running := false } :=
  C10_disabled_noop _ "session:start" {} 7 rfl

def hookExecuting : Hook :=
  { enabled := true,
    state := { status := "executing", current_tool := some "bash" },
    running := false, status_line_shown := false, update_task_running := false }

/-- C6 counterexample: "tool_post" is outside the subscribed event set,
yet the colon-to-underscore `getattr` lookup resolves it to
`_handle_tool_post`, which runs: the status flips from "executing" to
"thinking" and the current tool is cleared, so an event name outside the
subscribed set does not merely touch `last_activity`. -/
theorem C6_counterexample :
    "tool_post" ∉ SUBSCRIBED_EVENTS ∧
    hookExecuting.state.status = "executing" ∧
    (on_event hookExecuting "tool_post" {} 5).state.status = "thinking" ∧
    (on_event hookExecuting "tool_post" {} 5).state.current_tool = none := by
  refine ⟨by decide, rfl, by decide, by decide⟩

/-- C6 (amended): while the hook is enabled, every event delivered to
`on_event` leaves `last_activity` equal to the delivery time after the
handler (if any) has run, hence once set it is non-decreasing when events
arrive in wall-clock order; the `getattr` dispatch keys on the event name
with colons replaced by underscores, so exactly the names whose transform
matches no `_handle_*` suffix — the transforms of the 14 subscribed
names — are ignored without error and change nothing but `last_activity`,
while alias names such as "tool_post" do run the colliding handler. -/
theorem C6_last_activity (h : Hook) (event_type : String) (p : Payload) (now t0 : ℚ)
    (hen : h.enabled = true) :
    (on_event h event_type p now).state.last_activity = some now ∧
    (h.state.last_activity = some t0 → t0 ≤ now →
      ∀ t1, (on_event h event_type p now).state.last_activity = some t1 → t0 ≤ t1) ∧
    SUBSCRIBED_EVENTS.map pyReplaceColon = HANDLER_NAMES ∧
    (pyReplaceColon event_type ∉ HANDLER_NAMES →
      on_event h event_type p now
        = { h with state := { h.state with last_activity := some now } }) := by
  have hfirst : (on_event h event_type p now).state.last_activity = some now := by
    simp [on_event, hen]
  refine ⟨hfirst, ?_, by decide, ?_⟩
  · intro _ hle t1 ht1
    rw [hfirst] at ht1
    have := Option.some.inj ht1
    rw [← this]
    exact hle
  · intro hns
    simp only [HANDLER_NAMES, List.mem_cons, List.mem_singleton, not_or] at hns
    obtain ⟨e1, e2, e3, e4, e5, e6, e7, e8, e9, e10, e11, e12, e13, e14⟩ := hns
    simp [on_event, stateHandlerFor, hen, e1, e2, e3, e4, e5, e6, e7, e8, e9, e10,
      e11, e12, e13, e14]

def hookEnabled0 : Hook :=
  { enabled := true, state := { last_activity := some 3 }, running := false,
    status_line_shown := false, update_task_running := false }

theorem C6_last_activity_witness :
    (on_event hookEnabled0 "custom:event" {} 5).state.last_activity = some 5 ∧
    (3 : ℚ) ≤ 5 ∧
    on_event hookEnabled0 "custom:event" {} 5
      = { hookEnabled0 with
          state := { hookEnabled0.state with last_activity := some 5 } } := by
  obtain ⟨h1, h2, _h3, h4⟩ := C6_last_activity hookEnabled0 "custom:event" {} 5 3 rfl
  exact ⟨h1, h2 rfl (by norm_num) 5 h1, h4 (by decide)⟩

/-! ### unstick.py -/

/-- `UnstickHandler` escalation state: which callbacks were supplied at
construction, the interrupt counter and the last-interrupt timestamp. -/
structure UnstickHandler where
  has_on_cancel : Bool
  has_on_abort : Bool
  has_on_exit : Bool
  interrupt_count : Nat := 0
  last_interrupt : Option ℚ := none
deriving Repr, DecidableEq

/-- `self._escalation_window = 2.0` seconds. -/
def escalation_window : ℚ := 2

/-- The observable effect `_handle_sigint` dispatches after updating the
counters: which callback is invoked, or the raised `KeyboardInterrupt`,
or nothing (the callback for that count was not supplied). -/
inductive SigintEffect
  | cancel
  | abort
  | exitCallback
  | raiseKeyboardInterrupt
  | noCallback
deriving Repr, DecidableEq

/-- Counter update of `_handle_sigint`: increment inside the escalation
window, otherwise (or on the first ever signal) reset to 1. -/
def sigint_count (h : UnstickHandler) (now : ℚ) : Nat :=
  match h.last_interrupt with
  | some t0 => if now - t0 < escalation_window then h.interrupt_count + 1 else 1
  | none => 1

/-- Action dispatch of `_handle_sigint` on the resulting count. -/
def sigint_effect (h : UnstickHandler) (count : Nat) : SigintEffect :=
  if count = 1 then
    if h.has_on_cancel then SigintEffect.cancel else SigintEffect.noCallback
  else if count = 2 then
    if h.has_on_abort then SigintEffect.abort else SigintEffect.noCallback
  else if h.has_on_exit then SigintEffect.exitCallback
  else SigintEffect.raiseKeyboardInterrupt

/-- `UnstickHandler._handle_sigint` at wall-clock time `now`. -/
def handle_sigint (h : UnstickHandler) (now : ℚ) : UnstickHandler × SigintEffect :=
  let count := sigint_count h now
  ({ h with interrupt_count := count, last_interrupt := some now }, sigint_effect h count)

/-- A value held by the process SIGINT slot. -/
inductive SigHandler
  | defaultHandler
  | unstickHandler
  | otherHandler (n : Nat)
deriving Repr, DecidableEq

/-- The installation state of an `UnstickHandler`: the process SIGINT
slot (`signal.signal` / `signal.getsignal`), the saved original handler
and the `_installed` flag. -/
structure SignalWorld where
  sigint : SigHandler
  original_handler : Option SigHandler := none
  installed : Bool := false
deriving Repr, DecidableEq

/-- `UnstickHandler.install`. -/
def install (w : SignalWorld) : SignalWorld :=
  if w.installed then w
  else { sigint := SigHandler.unstickHandler, original_handler := some w.sigint,
         installed := true }

/-- `UnstickHandler.uninstall`. -/
def uninstall (w : SignalWorld) : SignalWorld :=
  if !w.installed then w
  else
    let w1 :=
      match w.original_handler with
      | some h0 => { w with sigint := h0 }
      | none => w
    { w1 with installed := false }

/-- How the body of `wait_for_unstick_or_complete` finishes: the awaited
task completes, the wait is cancelled (`asyncio.CancelledError`), or some
other exception escapes the polling loop. -/
inductive WaitOutcome
  | completed
  | cancelled
  | failed (exc : Nat)
deriving Repr, DecidableEq

/-- `wait_for_unstick_or_complete`: install the handler, poll until the
outcome, and run the `finally` uninstall on every exit path; a propagating
exception is the `Except.error` result. -/
def wait_for_unstick_or_complete (w : SignalWorld) (outcome : WaitOutcome) :
    Except Nat Bool × SignalWorld :=
  let w1 := install w
  match outcome with
  | WaitOutcome.completed => (Except.ok true, uninstall w1)
  | WaitOutcome.cancelled => (Except.ok false, uninstall w1)
  | WaitOutcome.failed e => (Except.error e, uninstall w1)

theorem uninstall_installed (w : SignalWorld) : (uninstall w).installed = false := by
  by_cases h : w.installed
  · cases ho : w.original_handler <;> simp [uninstall, h, ho]
  · simp [uninstall] at h ⊢
    simp [h]

/-- C1: on an interrupt signal at time `now`, the counter increments when
a previous signal exists within the 2-second window and resets to 1
otherwise; `last_interrupt` is set to `now` unconditionally; the dispatch
on the resulting count invokes the cancel callback at 1, the abort
callback at 2, and at 3 or more the exit callback when supplied or raises
`KeyboardInterrupt` when not. -/
theorem C1_sigint_escalation (h : UnstickHandler) (now t0 : ℚ) :
    (handle_sigint h now).1.last_interrupt = some now ∧
    (h.last_interrupt = some t0 → now - t0 < 2 →
      (handle_sigint h now).1.interrupt_count = h.interrupt_count + 1) ∧
    (h.last_interrupt = some t0 → ¬ now - t0 < 2 →
      (handle_sigint h now).1.interrupt_count = 1) ∧
    (h.last_interrupt = none → (handle_sigint h now).1.interrupt_count = 1) ∧
    ((handle_sigint h now).1.interrupt_count = 1 → h.has_on_cancel = true →
      (handle_sigint h now).2 = SigintEffect.cancel) ∧
    ((handle_sigint h now).1.interrupt_count = 2 → h.has_on_abort = true →
      (handle_sigint h now).2 = SigintEffect.abort) ∧
    (3 ≤ (handle_sigint h now).1.interrupt_count → h.has_on_exit = true →
      (handle_sigint h now).2 = SigintEffect.exitCallback) ∧
    (3 ≤ (handle_sigint h now).1.interrupt_count → h.has_on_exit = false →
      (handle_sigint h now).2 = SigintEffect.raiseKeyboardInterrupt) := by
  have hcnt : (handle_sigint h now).1.interrupt_count = sigint_count h now := rfl
  have heff : (handle_sigint h now).2 = sigint_effect h (sigint_count h now) := rfl
  refine ⟨rfl, ?_, ?_, ?_, ?_, ?_, ?_, ?_⟩
  · intro h0 hlt
    rw [hcnt]
    simp [sigint_count, escalation_window, h0, hlt]
  · intro h0 hlt
    rw [hcnt]
    simp [sigint_count, escalation_window, h0, hlt]
  · intro h0
    rw [hcnt]
    simp [sigint_count, h0]
  · intro hc hcb
    rw [hcnt] at hc
    rw [heff, hc]
    simp [sigint_effect, hcb]
  · intro hc hcb
    rw [hcnt] at hc
    rw [heff, hc]
    simp [sigint_effect, hcb]
  · intro hc hcb
    rw [hcnt] at hc
    rw [heff]
    have h1 : sigint_count h now ≠ 1 := by omega
    have h2 : sigint_count h now ≠ 2 := by omega
    simp [sigint_effect, h1, h2, hcb]
  · intro hc hcb
    rw [hcnt] at hc
    rw [heff]
    have h1 : sigint_count h now ≠ 1 := by omega
    have h2 : sigint_count h now ≠ 2 := by omega
    simp [sigint_effect, h1, h2, hcb]

def uhWithin : UnstickHandler :=
  { has_on_cancel := true, has_on_abort := true, has_on_exit := false,
    interrupt_count := 1, last_interrupt := some 10 }

def uhFresh : UnstickHandler :=
  { has_on_cancel := true, has_on_abort := true, has_on_exit := false }

theorem C1_sigint_escalation_witness :
    (handle_sigint uhWithin 11).1.interrupt_count = uhWithin.interrupt_count + 1 ∧
    (handle_sigint uhWithin 11).2 = SigintEffect.abort ∧
    (handle_sigint uhFresh 20).1.interrupt_count = 1 ∧
    (handle_sigint uhFresh 20).2 = SigintEffect.cancel ∧
    (handle_sigint uhWithin 15).1.interrupt_count = 1 := by
  have t := C1_sigint_escalation uhWithin 11 10
  have tf := C1_sigint_escalation uhFresh 20 0
  have tl := C1_sigint_escalation uhWithin 15 10
  have hinc := t.2.1 rfl (by norm_num)
  have hc2 : (handle_sigint uhWithin 11).1.interrupt_count = 2 := by
    rw [hinc]
    decide
  have hf1 := tf.2.2.2.1 rfl
  refine ⟨hinc, t.2.2.2.2.2.1 hc2 rfl, hf1, tf.2.2.2.2.1 hf1 rfl,
    tl.2.2.1 rfl (by norm_num)⟩

/-- C9: the wait primitive installs the handler before polling and the
`finally` uninstalls it on every exit path — completion returns `true`,
cancellation returns `false`, any other exception propagates — so after
the primitive finishes, by any path, the handler is no longer
installed. -/
theorem C9_wait_scoped (w : SignalWorld) (outcome : WaitOutcome) :
    (install w).installed = true ∧
    (wait_for_unstick_or_complete w outcome).2.installed = false ∧
    (outcome = WaitOutcome.completed →
      (wait_for_unstick_or_complete w outcome).1 = Except.ok true) ∧
    (outcome = WaitOutcome.cancelled →
      (wait_for_unstick_or_complete w outcome).1 = Except.ok false) ∧
    (∀ e, outcome = WaitOutcome.failed e →
      (wait_for_unstick_or_complete w outcome).1 = Except.error e) := by
  refine ⟨?_, ?_, ?_, ?_, ?_⟩
  · by_cases hw : w.installed <;> simp [install, hw]
  · cases outcome <;> simp [wait_for_unstick_or_complete, uninstall_installed]
  · intro ho
    rw [ho]
    rfl
  · intro ho
    rw [ho]
    rfl
  · intro e ho
    rw [ho]
    rfl

theorem C9_wait_scoped_witness :
    (wait_for_unstick_or_complete { sigint := SigHandler.defaultHandler }
      WaitOutcome.completed).1 = Except.ok true ∧
    (wait_for_unstick_or_complete { sigint := SigHandler.defaultHandler }
      WaitOutcome.completed).2.installed = false := by
  have t := C9_wait_scoped { sigint := SigHandler.defaultHandler } WaitOutcome.completed
  exact ⟨t.2.2.1 rfl, t.2.1⟩

/-! ### terminal.py — StatusLine -/

/-- Python slice `s[:n]` with an `Int` bound (a negative bound counts
from the end, as `content[: max_width - 3]` does for tiny widths). -/
def pyTakeInt (s : String) (n : Int) : String :=
  if 0 ≤ n then (s.toList.take n.toNat).asString
  else (s.toList.take (s.length - (-n).toNat)).asString

/-- Width-aware truncation step of `StatusLine.update`: content longer
than `width - 2` is cut to `width - 2 - 3` characters with "..."
appended. -/
def processedContent (width : Nat) (content : String) : String :=
  let max_width : Int := (width : Int) - 2
  if (content.length : Int) > max_width then
    pyTakeInt content (max_width - 3) ++ "..."
  else content

/-- `StatusLine` state: visibility, the last content written, the cached
terminal width, and the sequence of content strings pushed to the stream
(the ANSI cursor decoration around each write is abstracted away). -/
structure StatusLine where
  visible : Bool := false
  last_content : String := ""
  width : Nat := 80
  written : List String := []
deriving Repr, DecidableEq

/-- `StatusLine.update`: no-op while hidden; truncate to the terminal
width; skip the write when the content is unchanged. -/
def StatusLine.update (st : StatusLine) (content : String) : StatusLine :=
  if !st.visible then st
  else
    let content1 := processedContent st.width content
    if content1 = st.last_content then st
    else { st with last_content := content1, written := st.written ++ [content1] }

theorem pyTakeInt_length_of_nonneg (s : String) (n : Int) (hn : 0 ≤ n) :
    (pyTakeInt s n).length = min n.toNat s.length := by
  unfold pyTakeInt
  rw [if_pos hn]
  show (s.data.take n.toNat).length = min n.toNat s.data.length
  simp [List.length_take]

theorem update_keeps (st : StatusLine) (c : String) :
    (st.update c).visible = st.visible ∧ (st.update c).width = st.width := by
  unfold StatusLine.update
  by_cases hv : st.visible <;>
    by_cases he : processedContent st.width c = st.last_content <;>
      simp [hv, he]

theorem update_last_content (st : StatusLine) (c : String) (hv : st.visible = true) :
    (st.update c).last_content = processedContent st.width c := by
  unfold StatusLine.update
  by_cases he : processedContent st.width c = st.last_content <;> simp [hv, he]

theorem update_idem (st : StatusLine) (c : String) (hv : st.visible = true) :
    (st.update c).update c = st.update c := by
  have hkeep := update_keeps st c
  have hlast := update_last_content st c hv
  have hv1 : (st.update c).visible = true := by
    rw [hkeep.1]
    exact hv
  obtain ⟨hkv, hkw⟩ := hkeep
  generalize hst1 : st.update c = st1 at hlast hkw hv1 ⊢
  unfold StatusLine.update
  simp [hv1, hkw, hlast]

/-- C8: while visible, content longer than the available width minus 2 is
truncated to exactly that limit, the stored text being a prefix of the
content followed by the "..." marker; and a second consecutive `update`
with identical content is a complete no-op (no additional output). -/
theorem C8_status_line_update (st : StatusLine) (content : String)
    (hv : st.visible = true) (hw : 5 ≤ st.width) :
    (st.width - 2 < content.length →
      (st.update content).last_content
          = pyTakeInt content ((st.width : Int) - 2 - 3) ++ "..." ∧
      (st.update content).last_content.length = st.width - 2) ∧
    (st.update content).update content = st.update content := by
  have hlast := update_last_content st content hv
  refine ⟨?_, update_idem st content hv⟩
  intro hlong
  have hgt : (content.length : Int) > (st.width : Int) - 2 := by omega
  have hproc : processedContent st.width content
      = pyTakeInt content ((st.width : Int) - 2 - 3) ++ "..." := by
    unfold processedContent
    rw [if_pos hgt]
  refine ⟨by rw [hlast, hproc], ?_⟩
  rw [hlast, hproc, String.length_append, pyTakeInt_length_of_nonneg _ _ (by omega)]
  have h3 : ("...").length = 3 := rfl
  rw [h3]
  have htn : ((st.width : Int) - 2 - 3).toNat = st.width - 5 := by omega
  rw [htn]
  omega

def stVisible10 : StatusLine :=
  { visible := true, width := 10 }

theorem C8_status_line_update_witness :
    (stVisible10.update "aaaaaaaaaaaa").last_content.length = 8 ∧
    (stVisible10.update "aaaaaaaaaaaa").last_content
      = pyTakeInt "aaaaaaaaaaaa" ((stVisible10.width : Int) - 2 - 3) ++ "..." ∧
    (stVisible10.update "aaaaaaaaaaaa").update "aaaaaaaaaaaa"
      = stVisible10.update "aaaaaaaaaaaa" := by
  have t := C8_status_line_update stVisible10 "aaaaaaaaaaaa" rfl (by decide)
  have h1 := t.1 (by decide)
  refine ⟨?_, h1.1, t.2⟩
  rw [h1.2]
  decide

end SessionIndicator
